import Mathlib

/-!
Shallow embedding of the NSDotPy session layer (src/nsdotpy/session.py).

The embedding models the pure control flow of the session object.  HTTP
transport is represented by an oracle function from the outgoing call to the
server's response; a response is modelled as the facts the code extracts from
it (status code, content type, body text, the value of the chk and localid
input tags found by the html parser, the hrefs of the STANDOUT anchors, and
the pin cookie in the session jar after the response).  Python dicts carrying
form payloads are modelled as insertion-ordered association lists with
overwrite-in-place semantics, matching dict update order.  Python exceptions
are modelled as error values of an Except type; time.sleep is modelled by
recording the requested sleep durations.
-/

/-- Character-list prefix test, used to model Python str.startswith and as
the auxiliary for substring search. -/
def leadMatch : List Char → List Char → Bool
  | [], _ => true
  | _ :: _, [] => false
  | a :: as, b :: bs => a = b && leadMatch as bs

/-- Character-list substring test: does the needle occur inside the list. -/
def midMatch (needle : List Char) : List Char → Bool
  | [] => leadMatch needle []
  | c :: rest => leadMatch needle (c :: rest) || midMatch needle rest

/-- Python `needle in hay` on strings. -/
def pyIn (needle hay : String) : Bool :=
  midMatch needle.data hay.data

/-- Python `s.startswith(p)`. -/
def pyStartsWith (s p : String) : Bool :=
  leadMatch p.data s.data

/-- Drop leading whitespace from a character list. -/
def dropWS : List Char → List Char
  | [] => []
  | c :: rest => if c.isWhitespace then dropWS rest else c :: rest

/-- Python `s.strip()` on a character list: drop whitespace at both ends. -/
def trimChars (l : List Char) : List Char :=
  (dropWS (dropWS l).reverse).reverse

/-- Python `s.strip()`. -/
def pyStrip (s : String) : String :=
  String.mk (trimChars s.data)

/-- `canonicalize` from session.py: `string.lower().strip().replace(" ", "_")`.
Lowercasing is per character; replacing the one-character needle " " is a
character map. -/
def canonicalize (s : String) : String :=
  String.mk ((trimChars (s.data.map Char.toLower)).map
    (fun c => if c = ' ' then '_' else c))

/-- Python `s.split("=")` on a character list (always at least one piece). -/
def splitEq : List Char → List (List Char)
  | [] => [[]]
  | c :: rest =>
    let r := splitEq rest
    if c = '=' then [] :: r
    else
      match r with
      | [] => [[c]]
      | h :: t => (c :: h) :: t

/-- A Python dict of strings, as an insertion-ordered association list. -/
abbrev KV := List (String × String)

/-- Python `d[k] = v` / `d |= {k: v}`: overwrite in place if the key exists,
else append, preserving insertion order. -/
def kvInsert (kv : KV) (k v : String) : KV :=
  if kv.any (fun p => p.1 = k) then
    kv.map (fun p => if p.1 = k then (k, v) else p)
  else kv ++ [(k, v)]

/-- Python `d.get(k)` / `d[k]`: first binding of the key. -/
def kvLookup : KV → String → Option String
  | [], _ => none
  | (k, v) :: rest, key => if k = key then some v else kvLookup rest key

/-- The mutable fields of NSSession that the claims are about: the in-flight
lock, the Token Store (chk, localid, pin) and the Session State (nation,
region). -/
structure SessionState where
  lock : Bool
  chk : String
  localid : String
  pin : String
  nation : String
  region : String
deriving DecidableEq

/-- The facts of an HTTP response that session.py extracts: status code,
Content-Type header, body text, the value attribute of the first
`input name="chk"` and `input name="localid"` tags (none when the parser
finds no such tag), the hrefs of the `a class="STANDOUT"` anchors in document
order, and the pin cookie of the session jar after the response. -/
structure Response where
  status : Nat
  contentType : String
  body : String
  chkInput : Option String
  localidInput : Option String
  standoutHrefs : List String
  cookiePin : Option String
deriving DecidableEq

/-- One outgoing HTTP call made by the session (url, form payload, whether a
files payload was attached, redirect policy). -/
structure NetCall where
  url : String
  data : KV
  hasFiles : Bool
  followRedirects : Bool
deriving DecidableEq

/-- The Python exceptions `request` and its callees can raise. -/
inductive ReqError where
  /-- ValueError for a banned page category. -/
  | valueErrorBanned
  /-- ValueError for using request() on api.cgi. -/
  | valueErrorApi
  /-- PermissionError: the simultaneity lock is already held. -/
  | permissionError
  /-- httpx.HTTPError raised in _html_request on a status >= 400. -/
  | httpError
  /-- IndexError while parsing STANDOUT hrefs in _get_auth_values. -/
  | indexError
deriving DecidableEq

/-- `_get_auth_values`: non-markup responses are a no-op; otherwise the chk
and localid inputs, when present, overwrite the stored tokens with their
stripped values; a non-empty pin cookie overwrites the stored pin; when a
STANDOUT anchor exists, the second one's href is split on "=" and its second
piece becomes the canonical region (fewer than two anchors or no "=" in the
href is an IndexError, returned as `none`). -/
def get_auth_values (st : SessionState) (resp : Response) : Option SessionState :=
  if pyStartsWith resp.contentType "text/html" = false then some st
  else
    let st1 := match resp.chkInput with
      | some v => { st with chk := pyStrip v }
      | none => st
    let st2 := match resp.localidInput with
      | some v => { st1 with localid := pyStrip v }
      | none => st1
    let st3 := match resp.cookiePin with
      | some p => if p = "" then st2 else { st2 with pin := p }
      | none => st2
    match resp.standoutHrefs with
    | [] => some st3
    | _ :: _ =>
      match resp.standoutHrefs.get? 1 with
      | none => none
      | some href =>
        match (splitEq href.data).get? 1 with
        | none => none
        | some part => some { st3 with region := canonicalize (String.mk part) }

/-- The banned page categories checked at the top of `request`. -/
def bannedPages : List String :=
  ["page=telegrams", "page=dilemmas", "page=compose_telegram", "page=store", "page=help"]

/-- The value returned by the `request` model: the session state after the
call, the caller's data dict after the call (the html path mutates it in
place), the outgoing network calls actually made, and the returned response
or the raised exception. -/
structure ReqResult where
  state : SessionState
  data : KV
  calls : List NetCall
  outcome : Except ReqError Response

/-- The in-place token merge of `_html_request`:
`data |= {"chk": self.chk, "localid": self.localid}`. -/
def htmlData (st : SessionState) (data : KV) : KV :=
  kvInsert (kvInsert data "chk" st.chk) "localid" st.localid

/-- The outgoing call `_html_request` posts: the url with the userclick
nonce appended, the token-merged payload, the files flag and the redirect
policy. -/
def htmlCall (st : SessionState) (url : String) (data : KV)
    (hasFiles followRedirects : Bool) (userclick : Nat) : NetCall :=
  ⟨url ++ "/userclick=" ++ toString userclick, htmlData st data,
   hasFiles, followRedirects⟩

/-- `NSSession.request`: banned-category check, api.cgi check, then the html
path (lock check, lock set, token merge into the caller's dict, userclick
appended to the url, post, status check raising HTTPError, auth extraction,
lock clear — note the source clears the lock only after `_html_request`
returns, so a raised HTTPError or IndexError leaves the lock set) or the
external passthrough.  `userclick` stands for the timestamp produced by the
Input Gate; `net` is the transport oracle. -/
def request (st : SessionState) (url : String) (data : KV)
    (hasFiles followRedirects : Bool) (userclick : Nat)
    (net : NetCall → Response) : ReqResult :=
  if bannedPages.any (fun b => pyIn b (canonicalize url)) then
    ⟨st, data, [], .error .valueErrorBanned⟩
  else if pyIn "api.cgi" (canonicalize url) then
    ⟨st, data, [], .error .valueErrorApi⟩
  else if pyIn "nationstates" (canonicalize url) then
    if st.lock then
      ⟨st, data, [], .error .permissionError⟩
    else
      let stL := { st with lock := true }
      let data1 := htmlData st data
      let call := htmlCall st url data hasFiles followRedirects userclick
      let resp := net call
      if resp.status ≥ 400 then
        ⟨stL, data1, [call], .error .httpError⟩
      else
        match get_auth_values stL resp with
        | none => ⟨stL, data1, [call], .error .indexError⟩
        | some st2 => ⟨{ st2 with lock := false }, data1, [call], .ok resp⟩
  else
    let call : NetCall := ⟨url, data, false, followRedirects⟩
    ⟨st, data, [call], .ok (net call)⟩

/-- The response-header fields `_wait_for_ratelimit` reads: the optional
X-Pin header, the optional Retry-After header (absent or already parsed to an
integer), and the RateLimit-Remaining and RateLimit-Reset headers, which the
code reads unconditionally and parses with `int`. -/
structure RLHead where
  xpin : Option String
  retryAfter : Option Int
  remaining : Int
  reset : Int
deriving DecidableEq

/-- What `_wait_for_ratelimit` does: either it completes, with the (possibly
X-Pin-updated) stored pin and the list of sleep durations it performed, in
order; or the expression `seconds_until_reset / requests_left` raises
ZeroDivisionError. -/
inductive RLOutcome where
  | ok (pin : String) (sleeps : List ℚ)
  | zeroDivision
deriving DecidableEq

/-- `_wait_for_ratelimit`: store X-Pin when the header is present; if a
Retry-After header is present, sleep that long; then, when fewer than 10
requests remain or `constant_rate_limit` is set, sleep
`seconds_until_reset / requests_left` — a true division, which in Python
raises ZeroDivisionError when `requests_left` is 0 (and 0 < 10, so the
branch is taken). -/
def wait_for_ratelimit (pin : String) (head : RLHead)
    (constant_rate_limit : Bool) : RLOutcome :=
  let pin1 := match head.xpin with
    | some p => p
    | none => pin
  let sleeps : List ℚ := match head.retryAfter with
    | some w => [(w : ℚ)]
    | none => []
  if head.remaining < 10 ∨ constant_rate_limit then
    if head.remaining = 0 then .zeroDivision
    else .ok pin1 (sleeps ++ [(head.reset : ℚ) / (head.remaining : ℚ)])
  else .ok pin1 sleeps

/-- An API response as `api_command` consumes it: the rate-limit headers, the
HTTP status, and the parsed body after `benedict.from_xml ... ["nation"]`,
modelled as a string mapping. -/
structure ApiResponse where
  head : RLHead
  status : Nat
  parsed : KV
deriving DecidableEq

/-- The Python exceptions `api_command` can raise. -/
inductive ApiErr where
  /-- ValueError: command not in the allowed set. -/
  | badCommand
  /-- ValueError: neither a password nor a stored pin. -/
  | noAuth
  /-- ValueError: mode not "", "prepare" or "execute". -/
  | badMode
  /-- ZeroDivisionError propagated from _wait_for_ratelimit. -/
  | zeroDivision
  /-- raise_for_status on a status >= 400. -/
  | httpStatus
  /-- KeyError: no `success` key in the prepare response. -/
  | missingSuccess
deriving DecidableEq

/-- The field updates `api_command` performs on the caller's dict before
sending: `data["v"] = "12"; data["nation"] = canonicalize(nation);
data["c"] = command; data["mode"] = mode`. -/
def api_payload (nation command : String) (data : KV) (mode : String) : KV :=
  kvInsert (kvInsert (kvInsert (kvInsert data
    "v" "12") "nation" (canonicalize nation)) "c" command) "mode" mode

/-- `api_command`: validate command, authentication and mode; set the v,
nation, c and mode fields of the caller's dict (mode defaults to "prepare"
when none is given); send; run the rate limiter; raise for status; then
either return the parsed response (explicit mode) or, when no mode was
given, store the prepare response's `success` value under `token` and
recurse with mode "execute" (and default password and rate-limit arguments,
as the source recursion does).  Returns the submissions made, in order, and
the final parsed response and pin (or the raised error).  `net` maps a
submitted payload to the server's response. -/
def api_command (st : SessionState) (nation command : String) (data : KV)
    (password mode : String) (constant_rate_limit : Bool)
    (net : KV → ApiResponse) : List KV × Except ApiErr (SessionState × KV) :=
  if ¬(command = "giftcard" ∨ command = "dispatch" ∨ command = "rmbpost") then
    ([], .error .badCommand)
  else if password = "" ∧ st.pin = "" then
    ([], .error .noAuth)
  else if ¬(mode = "" ∨ mode = "prepare" ∨ mode = "execute") then
    ([], .error .badMode)
  else
    let d1 := api_payload nation command data (if mode = "" then "prepare" else mode)
    let resp := net d1
    match wait_for_ratelimit st.pin resp.head constant_rate_limit with
    | .zeroDivision => ([d1], .error .zeroDivision)
    | .ok pin1 _ =>
      let st1 := { st with pin := pin1 }
      if resp.status ≥ 400 then ([d1], .error .httpStatus)
      else if h : mode = "" then
        match kvLookup resp.parsed "success" with
        | none => ([d1], .error .missingSuccess)
        | some tok =>
          let d2 := kvInsert d1 "token" tok
          let rest := api_command st1 nation command d2 "" "execute" false net
          (d1 :: rest.1, rest.2)
      else ([d1], .ok (st1, resp.parsed))
termination_by (if mode = "" then 1 else 0)
decreasing_by simp_all

/-- The `max_lengths` table of `_validate_fields`. -/
def max_lengths : List (String × Nat) :=
  [("pretitle", 28), ("slogan", 55), ("currency", 40), ("animal", 40),
   ("demonym_noun", 44), ("demonym_adjective", 44), ("demonym_plural", 44)]

/-- The ValueErrors `_validate_fields` can raise. -/
inductive ValErr where
  | tooLong (key : String)
  | tooShort (key : String)
  | badPretitle
deriving DecidableEq

/-- Python `s.isalnum()`: non-empty and every character alphanumeric. -/
def pyIsAlnum (s : String) : Bool :=
  s.data ≠ [] && s.data.all Char.isAlphanum

/-- `_validate_fields`: walk the dict in insertion order; keys absent from
`max_lengths` are skipped; the first violation (too long, shorter than 2 for
non-slogan fields, or a pretitle that is not alphanumeric-plus-spaces after
removing spaces) raises. -/
def validate_fields : KV → Option ValErr
  | [] => none
  | (key, value) :: rest =>
    match max_lengths.lookup key with
    | none => validate_fields rest
    | some m =>
      if value.length > m then some (.tooLong key)
      else if value.length < 2 ∧ key ≠ "slogan" then some (.tooShort key)
      else if key = "pretitle" ∧
          pyIsAlnum (String.mk (value.data.filter (fun c => c ≠ ' '))) = false then
        some .badPretitle
      else validate_fields rest

/-- The errors a high-level operation can surface: a validation error before
any network call, or an error propagated from `request`. -/
inductive OpError where
  | validation (e : ValErr)
  | req (e : ReqError)
deriving DecidableEq

/-- `change_nation_settings`: build the settings form payload (note the form
field names: the pretitle is sent under "type", the demonyms under
"demonym2" / "demonym" / "demonym2pl"), drop empty values, run
`_validate_fields`, then post to the settings page and report whether the
success substring is present.  Returns the network calls made together with
the outcome. -/
def change_nation_settings (st : SessionState)
    (email pretitle slogan currency animal demonym_noun demonym_adjective
     demonym_plural new_password : String) (userclick : Nat)
    (net : NetCall → Response) :
    List NetCall × Except OpError (SessionState × Bool) :=
  let url := "https://www.nationstates.net/template-overall=none/page=settings"
  let data0 : KV :=
    [("type", pretitle), ("slogan", slogan), ("currency", currency),
     ("animal", animal), ("demonym2", demonym_noun),
     ("demonym", demonym_adjective), ("demonym2pl", demonym_plural),
     ("email", email), ("password", new_password),
     ("confirm_password", new_password), ("update", " Update ")]
  let data := data0.filter (fun p => p.2 ≠ "")
  match validate_fields data with
  | some e => ([], .error (.validation e))
  | none =>
    let r := request st url data false false userclick net
    match r.outcome with
    | .error e => (r.calls, .error (.req e))
    | .ok resp =>
      (r.calls,
       .ok (r.state, pyIn "Your settings have been successfully updated." resp.body))

/-- `move_to_region`: post region_name and move_region (and the password
when one is given) to the change_region page; on a body containing
"Success!" set the stored region to the canonical target and return true,
else return false. -/
def move_to_region (st : SessionState) (region password : String)
    (userclick : Nat) (net : NetCall → Response) :
    List NetCall × Except ReqError (SessionState × Bool) :=
  let url := "https://www.nationstates.net/template-overall=none/page=change_region"
  let data : KV := [("region_name", region), ("move_region", "1")]
  let data := if password ≠ "" then kvInsert data "password" password else data
  let r := request st url data false false userclick net
  match r.outcome with
  | .error e => (r.calls, .error e)
  | .ok resp =>
    if pyIn "Success!" resp.body then
      (r.calls, .ok ({ r.state with region := canonicalize region }, true))
    else
      (r.calls, .ok (r.state, false))

/-- The success test of `create_collection` as a function of the response
body: `"Created collection!" in response.text`. -/
def create_collection_success (body : String) : Bool :=
  pyIn "Created collection!" body

/-- The success test of `delete_collection` as a function of the response
body; the source line reads `"Created collection!" in response.text`, the
same marker as in `create_collection`. -/
def delete_collection_success (body : String) : Bool :=
  pyIn "Created collection!" body

/-- `create_collection`: post edit, collection_name and save_collection to
the deck page; success iff the body contains "Created collection!". -/
def create_collection (st : SessionState) (name : String) (userclick : Nat)
    (net : NetCall → Response) :
    List NetCall × Except ReqError (SessionState × Bool) :=
  let url := "https://www.nationstates.net/template-overall=none/page=deck"
  let data : KV := [("edit", "1"), ("collection_name", name), ("save_collection", "1")]
  let r := request st url data false false userclick net
  match r.outcome with
  | .error e => (r.calls, .error e)
  | .ok resp => (r.calls, .ok (r.state, create_collection_success resp.body))

/-- `delete_collection`: post edit, collection_name and delete_collection to
the deck page; the success test in the source is the same
"Created collection!" substring as in `create_collection`. -/
def delete_collection (st : SessionState) (name : String) (userclick : Nat)
    (net : NetCall → Response) :
    List NetCall × Except ReqError (SessionState × Bool) :=
  let url := "https://www.nationstates.net/template-overall=none/page=deck"
  let data : KV := [("edit", "1"), ("collection_name", name), ("delete_collection", "1")]
  let r := request st url data false false userclick net
  match r.outcome with
  | .error e => (r.calls, .error e)
  | .ok resp => (r.calls, .ok (r.state, delete_collection_success resp.body))

/-- The form payload `move_to_region` builds before dispatch. -/
def moveData (region password : String) : KV :=
  let data : KV := [("region_name", region), ("move_region", "1")]
  if password ≠ "" then kvInsert data "password" password else data

/-- The network call `move_to_region` sends, for a given session state and
userclick nonce. -/
def moveCall (st : SessionState) (region password : String) (uc : Nat) : NetCall :=
  htmlCall st "https://www.nationstates.net/template-overall=none/page=change_region"
    (moveData region password) false false uc

/-- The network call `create_collection` sends. -/
def createCall (st : SessionState) (name : String) (uc : Nat) : NetCall :=
  htmlCall st "https://www.nationstates.net/template-overall=none/page=deck"
    [("edit", "1"), ("collection_name", name), ("save_collection", "1")] false false uc

/-- The network call `delete_collection` sends. -/
def deleteCall (st : SessionState) (name : String) (uc : Nat) : NetCall :=
  htmlCall st "https://www.nationstates.net/template-overall=none/page=deck"
    [("edit", "1"), ("collection_name", name), ("delete_collection", "1")] false false uc

/-- A concrete API oracle for exercising the two-phase command protocol: the
prepare submission is answered with a `success` token, any other submission
with an ordinary result, both unthrottled and with status 200. -/
def c6net : KV → ApiResponse := fun d =>
  if kvLookup d "mode" = some "prepare" then
    ⟨⟨none, none, 50, 30⟩, 200, [("success", "TOK")]⟩
  else
    ⟨⟨none, none, 50, 30⟩, 200, [("ok", "1")]⟩

/-! ## Helper lemmas -/

/-- Looking up the overwritten key after an in-place dict update finds the
new value (overwrite case of `kvInsert`). -/
theorem kvLookup_map_overwrite (kv : KV) (k v : String)
    (h : kv.any (fun p => p.1 = k) = true) :
    kvLookup (kv.map (fun p => if p.1 = k then (k, v) else p)) k = some v := by
  induction kv with
  | nil => simp at h
  | cons p rest ih =>
    obtain ⟨pk, pv⟩ := p
    by_cases hp : pk = k
    · simp only [List.map_cons]
      rw [if_pos hp]
      simp [kvLookup]
    · simp only [List.any_cons, Bool.or_eq_true, decide_eq_true_eq] at h
      rcases h with h | h
      · exact absurd h hp
      · simp only [List.map_cons]
        rw [if_neg hp]
        simp only [kvLookup]
        rw [if_neg hp]
        exact ih h

/-- The in-place overwrite of one key leaves lookups of other keys alone. -/
theorem kvLookup_map_ne (kv : KV) (k v k' : String) (h : k' ≠ k) :
    kvLookup (kv.map (fun p => if p.1 = k then (k, v) else p)) k' = kvLookup kv k' := by
  induction kv with
  | nil => simp [kvLookup]
  | cons p rest ih =>
    obtain ⟨pk, pv⟩ := p
    by_cases hp : pk = k
    · have hpk' : ¬ pk = k' := fun hh => h (hh ▸ hp)
      simp only [List.map_cons]
      rw [if_pos hp]
      simp only [kvLookup]
      rw [if_neg (fun hh => h hh.symm), if_neg hpk']
      exact ih
    · simp only [List.map_cons]
      rw [if_neg hp]
      simp only [kvLookup]
      by_cases hp' : pk = k'
      · rw [if_pos hp', if_pos hp']
      · rw [if_neg hp', if_neg hp']
        exact ih

/-- A key no entry carries looks up to `none`. -/
theorem kvLookup_none_of_not_any (kv : KV) (k : String)
    (h : kv.any (fun p => p.1 = k) = false) :
    kvLookup kv k = none := by
  induction kv with
  | nil => simp [kvLookup]
  | cons p rest ih =>
    obtain ⟨pk, pv⟩ := p
    simp only [List.any_cons, Bool.or_eq_false_iff, decide_eq_false_iff_not] at h
    simp only [kvLookup]
    rw [if_neg h.1]
    exact ih h.2

/-- Lookup distributes over list append, preferring the left list. -/
theorem kvLookup_append (kv tail : KV) (key : String) :
    kvLookup (kv ++ tail) key =
      match kvLookup kv key with
      | some v => some v
      | none => kvLookup tail key := by
  induction kv with
  | nil => simp [kvLookup]
  | cons p rest ih =>
    obtain ⟨pk, pv⟩ := p
    by_cases hp : pk = key
    · simp only [List.cons_append, kvLookup]
      rw [if_pos hp, if_pos hp]
    · simp only [List.cons_append, kvLookup]
      rw [if_neg hp, if_neg hp]
      exact ih

/-- After `d[k] = v`, looking up `k` yields `v`. -/
theorem kvLookup_kvInsert_self (kv : KV) (k v : String) :
    kvLookup (kvInsert kv k v) k = some v := by
  unfold kvInsert
  split
  · exact kvLookup_map_overwrite kv k v (by assumption)
  · rename_i h
    rw [kvLookup_append]
    rw [kvLookup_none_of_not_any kv k (by rw [Bool.not_eq_true] at h; exact h)]
    simp [kvLookup]

/-- After `d[k] = v`, looking up any other key is unchanged. -/
theorem kvLookup_kvInsert_ne (kv : KV) (k v k' : String) (h : k' ≠ k) :
    kvLookup (kvInsert kv k v) k' = kvLookup kv k' := by
  unfold kvInsert
  split
  · exact kvLookup_map_ne kv k v k' h
  · rw [kvLookup_append]
    cases hk : kvLookup kv k' with
    | some v' => simp
    | none =>
      simp only [kvLookup]
      rw [if_neg (fun hh => h hh.symm)]

/-- On a response with no STANDOUT anchor the extractor always succeeds and
leaves the region (and the lock) unchanged. -/
theorem get_auth_values_no_standout (st : SessionState) (resp : Response)
    (hso : resp.standoutHrefs = []) :
    ∃ st2, get_auth_values st resp = some st2
      ∧ st2.region = st.region ∧ st2.lock = st.lock := by
  unfold get_auth_values
  by_cases hh : pyStartsWith resp.contentType "text/html" = false
  · rw [if_pos hh]
    exact ⟨st, rfl, rfl, rfl⟩
  · rw [if_neg hh]
    cases hc : resp.chkInput <;> cases hl : resp.localidInput <;>
      cases hp : resp.cookiePin <;> simp only [hc, hl, hp, hso] <;>
      (repeat' split) <;> exact ⟨_, rfl, by simp, by simp⟩

/-- Characterization of a successful run of `request` through the html path:
with the URL passing all checks, the lock free, a non-error status and a
successful extraction, the call returns the extracted state with the lock
cleared, the token-merged dict, the single outgoing call, and the response. -/
theorem request_spec (st : SessionState) (url : String) (data : KV)
    (files redirects : Bool) (uc : Nat) (net : NetCall → Response)
    (st2 : SessionState)
    (hban : bannedPages.any (fun b => pyIn b (canonicalize url)) = false)
    (hapi : pyIn "api.cgi" (canonicalize url) = false)
    (hns : pyIn "nationstates" (canonicalize url) = true)
    (hlock : st.lock = false)
    (hst : (net (htmlCall st url data files redirects uc)).status < 400)
    (hext : get_auth_values { st with lock := true }
        (net (htmlCall st url data files redirects uc)) = some st2) :
    request st url data files redirects uc net
      = ⟨{ st2 with lock := false }, htmlData st data,
         [htmlCall st url data files redirects uc],
         .ok (net (htmlCall st url data files redirects uc))⟩ := by
  simp only [request, hban, hapi, hns, hlock, Bool.false_eq_true, if_false, if_true]
  rw [if_neg (by omega)]
  rw [hext]

/-- When the remaining count is non-zero and no X-Pin header arrives, the
rate limiter completes and keeps the stored pin. -/
theorem wait_for_ratelimit_ok (pin : String) (head : RLHead) (crl : Bool)
    (h : head.remaining ≠ 0) (hx : head.xpin = none) :
    ∃ sleeps, wait_for_ratelimit pin head crl = .ok pin sleeps := by
  simp only [wait_for_ratelimit, hx, h, if_false]
  split <;> exact ⟨_, rfl⟩

/-- The shape of the two payloads of a chained two-phase command: the first
carries the prepare marker, the second carries the continuation token and
the execute marker and otherwise agrees with the first. -/
theorem api_payload_lookup_facts (nation command : String) (data : KV) (tok : String) :
    kvLookup (api_payload nation command data "prepare") "mode" = some "prepare"
    ∧ kvLookup (api_payload nation command
        (kvInsert (api_payload nation command data "prepare") "token" tok) "execute")
        "mode" = some "execute"
    ∧ kvLookup (api_payload nation command
        (kvInsert (api_payload nation command data "prepare") "token" tok) "execute")
        "token" = some tok
    ∧ ∀ k, k ≠ "mode" → k ≠ "token" →
        kvLookup (api_payload nation command
          (kvInsert (api_payload nation command data "prepare") "token" tok) "execute") k
          = kvLookup (api_payload nation command data "prepare") k := by
  simp only [api_payload]
  refine ⟨kvLookup_kvInsert_self _ _ _, kvLookup_kvInsert_self _ _ _, ?_, ?_⟩
  · simp [kvLookup_kvInsert_ne, kvLookup_kvInsert_self]
  · intro k hk1 hk2
    by_cases hv : k = "v"
    · subst hv; simp [kvLookup_kvInsert_ne, kvLookup_kvInsert_self]
    · by_cases hn : k = "nation"
      · subst hn; simp [kvLookup_kvInsert_ne, kvLookup_kvInsert_self]
      · by_cases hc2 : k = "c"
        · subst hc2; simp [kvLookup_kvInsert_ne, kvLookup_kvInsert_self]
        · simp [kvLookup_kvInsert_ne, kvLookup_kvInsert_self, hk1, hk2, hv, hn, hc2]

/-- A single explicit-mode run of `api_command`: one submission with the
given marker, whose parsed result is returned unchanged. -/
theorem api_command_explicit_mode (st : SessionState) (nation command : String)
    (data : KV) (crl : Bool) (net : KV → ApiResponse) (mode : String)
    (hcmd : command = "giftcard" ∨ command = "dispatch" ∨ command = "rmbpost")
    (hpin : st.pin ≠ "")
    (hm : mode = "prepare" ∨ mode = "execute")
    (hrem : (net (api_payload nation command data mode)).head.remaining ≠ 0)
    (hst : (net (api_payload nation command data mode)).status < 400)
    (hxpin : (net (api_payload nation command data mode)).head.xpin = none) :
    api_command st nation command data "" mode crl net
      = ([api_payload nation command data mode],
         .ok (st, (net (api_payload nation command data mode)).parsed)) := by
  obtain ⟨s3, hrl3⟩ := wait_for_ratelimit_ok st.pin
    (net (api_payload nation command data mode)).head crl hrem hxpin
  have hne : ¬ mode = "" := by rcases hm with rfl | rfl <;> decide
  rw [api_command]
  rw [if_neg (not_not_intro hcmd)]
  rw [if_neg (by simp [hpin])]
  rw [if_neg (by simp [hm])]
  rw [if_neg hne]
  simp only [hrl3]
  rw [if_neg (by omega)]
  rw [dif_neg hne]

/-! ## Claim theorems -/

/-- C1: the claim states that a remaining-request count of 0 is treated as
"wait the full reset window" and that the division `reset_window / remaining`
never executes with remaining = 0.  The code behaves otherwise: whenever the
RateLimit-Remaining header is 0, the low-water branch is taken (0 < 10) and
`seconds_until_reset / requests_left` is evaluated with requests_left = 0,
which in Python raises ZeroDivisionError.  This theorem evaluates the rate
limiter at any such header mapping. -/
theorem c1_ratelimit_remaining_zero_raises (pin : String) (head : RLHead)
    (crl : Bool) (h : head.remaining = 0) :
    wait_for_ratelimit pin head crl = RLOutcome.zeroDivision := by
  simp [wait_for_ratelimit, h]

/-- C1 witness: the concrete failing headers, remaining 0 and reset window
10, with no Retry-After and no X-Pin. -/
theorem c1_ratelimit_remaining_zero_raises_witness :
    wait_for_ratelimit "" ⟨none, none, 0, 10⟩ false = RLOutcome.zeroDivision :=
  c1_ratelimit_remaining_zero_raises "" ⟨none, none, 0, 10⟩ false rfl

/-- C2: for every session state holding the In-flight Lock, a `request` call
on a URL of the site's HTML surface (one that passes the banned-page and
api.cgi checks and matches "nationstates") raises PermissionError, makes no
network call, leaves the session state exactly as it was, and does not touch
the caller's data mapping. -/
theorem c2_simultaneity_lock_blocks_request (st : SessionState) (url : String)
    (data : KV) (files redirects : Bool) (uc : Nat) (net : NetCall → Response)
    (hlock : st.lock = true)
    (hban : bannedPages.any (fun b => pyIn b (canonicalize url)) = false)
    (hapi : pyIn "api.cgi" (canonicalize url) = false)
    (hns : pyIn "nationstates" (canonicalize url) = true) :
    request st url data files redirects uc net
      = ⟨st, data, [], .error .permissionError⟩ := by
  simp [request, hban, hapi, hns, hlock]

/-- C2 witness: a locked session asked for a nationstates page. -/
theorem c2_simultaneity_lock_blocks_request_witness :
    request ⟨true, "", "", "", "", ""⟩ "nationstates.net" [] false false 0
        (fun _ => ⟨200, "", "", none, none, [], none⟩)
      = ⟨⟨true, "", "", "", "", ""⟩, [], [], .error .permissionError⟩ :=
  c2_simultaneity_lock_blocks_request ⟨true, "", "", "", "", ""⟩ "nationstates.net"
    [] false false 0 (fun _ => ⟨200, "", "", none, none, [], none⟩) rfl
    (by decide) (by decide) (by decide)

/-- C3: the claim states the In-flight Lock is free again when `request`
returns or raises, including the path where the HTML request fails with a
propagated HTTP error status.  The code behaves otherwise: `request` sets
`self._lock = True`, calls `_html_request`, and clears the lock only on the
line after the call, with no try/finally — so when the response status is
400 or above and `_html_request` raises HTTPError, the lock stays held.
This theorem evaluates the model at a concrete server-error response: the
call raises the HTTP error and the lock is still set afterwards. -/
theorem c3_lock_left_held_on_http_error :
    (request ⟨false, "c0", "l0", "", "", ""⟩ "nationstates.net" [] false false 0
        (fun _ => ⟨500, "text/html", "Internal error page", none, none, [], none⟩)).outcome
      = .error .httpError
    ∧ (request ⟨false, "c0", "l0", "", "", ""⟩ "nationstates.net" [] false false 0
        (fun _ => ⟨500, "text/html", "Internal error page", none, none, [], none⟩)).state.lock
      = true := ⟨rfl, rfl⟩

/-- C4 counterexample: the claim states that on a known logged-out page
missing a token field the stored value is cleared.  The extractor has no
such case: on a logged-out markup page carrying neither token input, a
previously stored chk value survives untouched instead of being cleared. -/
theorem c4_logged_out_page_not_cleared :
    get_auth_values ⟨false, "tok123", "lid456", "", "", "some_region"⟩
        ⟨200, "text/html", "<html><p>You are not logged in.</p></html>",
          none, none, [], none⟩
      = some ⟨false, "tok123", "lid456", "", "", "some_region"⟩
    ∧ ("tok123" : String) ≠ "" := ⟨rfl, by decide⟩

/-- C4 (amended): for every markup response, a missing token field leaves
the corresponding prior Token Store value unchanged unconditionally — the
extractor never clears a stored token, logged-out pages included — and when
both token fields are present the store afterwards holds exactly those two
(stripped) values, overwriting the previous ones. -/
theorem c4_extractor_overwrite_only (st st' : SessionState) (resp : Response)
    (hhtml : pyStartsWith resp.contentType "text/html" = true)
    (hok : get_auth_values st resp = some st') :
    (resp.chkInput = none → st'.chk = st.chk)
    ∧ (resp.localidInput = none → st'.localid = st.localid)
    ∧ (∀ cv lv, resp.chkInput = some cv → resp.localidInput = some lv →
        st'.chk = pyStrip cv ∧ st'.localid = pyStrip lv) := by
  unfold get_auth_values at hok
  rw [hhtml] at hok
  simp only [Bool.true_eq_false, if_false] at hok
  have key : st'.chk = (match resp.chkInput with
        | some v => pyStrip v
        | none => st.chk)
      ∧ st'.localid = (match resp.localidInput with
        | some v => pyStrip v
        | none => st.localid) := by
    cases hc : resp.chkInput <;> cases hl : resp.localidInput <;>
      cases hp : resp.cookiePin <;> simp only [hc, hl, hp] at hok <;>
      cases hs : resp.standoutHrefs <;> simp only [hs] at hok <;>
      (repeat' split at hok) <;>
      first
      | exact Option.noConfusion hok
      | (injection hok with hok2
         subst hok2
         simp)
  refine ⟨?_, ?_, ?_⟩
  · intro hc; rw [key.1, hc]
  · intro hl; rw [key.2, hl]
  · intro cv lv hc hl
    exact ⟨by rw [key.1, hc], by rw [key.2, hl]⟩

/-- C4 witness: a response carrying both token inputs overwrites the store
with their stripped values. -/
theorem c4_extractor_overwrite_only_witness :
    (⟨false, "newchk", "newlid", "", "", ""⟩ : SessionState).chk = pyStrip " newchk "
    ∧ (⟨false, "newchk", "newlid", "", "", ""⟩ : SessionState).localid
      = pyStrip " newlid " :=
  (c4_extractor_overwrite_only ⟨false, "old1", "old2", "", "", ""⟩
    ⟨false, "newchk", "newlid", "", "", ""⟩
    ⟨200, "text/html", "page", some " newchk ", some " newlid ", [], none⟩
    rfl rfl).2.2 " newchk " " newlid " rfl rfl

/-- C5 counterexample: the claim states that a `move_to_region` response
without the success marker leaves the stored region equal to its value
before the call.  The auth extractor that runs on every HTML response can
overwrite the stored region from the page's STANDOUT anchors even when the
move failed: a failure response carrying two STANDOUT anchors rewrites the
region from "old_region" to "elsewhere" while the move returns False. -/
theorem c5_failed_move_region_overwritten :
    (move_to_region ⟨false, "", "", "", "", "old_region"⟩ "target" "" 0
        (fun _ => ⟨200, "text/html", "No such region.", none, none,
          ["page=x", "region=elsewhere"], none⟩)).2
      = .ok (⟨false, "", "", "", "", "elsewhere"⟩, false)
    ∧ ("elsewhere" : String) ≠ "old_region" := ⟨rfl, by decide⟩

/-- C5 (amended): on a success-marker response `move_to_region` stores the
canonical form of the target region and returns True; on a response without
the marker the function itself leaves the region alone and returns False,
but the auth extractor may still overwrite the stored region from STANDOUT
anchors in the response — when the response carries no STANDOUT anchor, the
extracted state keeps the prior region, so a failed move leaves it
unchanged. -/
theorem c5_move_to_region_spec (st : SessionState) (region password : String)
    (uc : Nat) (net : NetCall → Response) (st2 : SessionState)
    (hlock : st.lock = false)
    (hso : (net (moveCall st region password uc)).standoutHrefs = [])
    (hst : (net (moveCall st region password uc)).status < 400)
    (hext : get_auth_values { st with lock := true }
        (net (moveCall st region password uc)) = some st2) :
    move_to_region st region password uc net
      = ([moveCall st region password uc],
         if pyIn "Success!" (net (moveCall st region password uc)).body then
           .ok ({ st2 with lock := false, region := canonicalize region }, true)
         else .ok ({ st2 with lock := false }, false))
    ∧ st2.region = st.region := by
  have hreq := request_spec st
    "https://www.nationstates.net/template-overall=none/page=change_region"
    (moveData region password) false false uc net st2 (by decide) (by decide) (by decide)
    hlock (by simpa only [moveCall] using hst) (by simpa only [moveCall] using hext)
  constructor
  · simp only [move_to_region]
    rw [show (if password ≠ "" then
          kvInsert [("region_name", region), ("move_region", "1")] "password" password
        else [("region_name", region), ("move_region", "1")]) = moveData region password
      from rfl]
    rw [hreq]
    simp only [moveCall]
    split
    · rfl
    · rfl
  · obtain ⟨st2', hex', hreg, hlk⟩ :=
      get_auth_values_no_standout { st with lock := true }
        (net (moveCall st region password uc)) hso
    rw [hext] at hex'
    injection hex' with h2
    rw [← h2] at hreg
    simpa using hreg

/-- C5 witness: a successful move to "The North Pacific" stores the
canonical region name and returns True. -/
theorem c5_move_to_region_spec_witness :
    move_to_region ⟨false, "", "", "", "", "home"⟩ "The North Pacific" "" 0
        (fun _ => ⟨200, "text/html", "Success! You have moved.", none, none, [], none⟩)
      = ([moveCall ⟨false, "", "", "", "", "home"⟩ "The North Pacific" "" 0],
         if pyIn "Success!"
             ((fun _ => (⟨200, "text/html", "Success! You have moved.",
                 none, none, [], none⟩ : Response))
               (moveCall ⟨false, "", "", "", "", "home"⟩ "The North Pacific" "" 0)).body then
           .ok (⟨false, "", "", "", "", canonicalize "The North Pacific"⟩, true)
         else .ok (⟨false, "", "", "", "", "home"⟩, false))
    ∧ ("home" : String) = "home" :=
  c5_move_to_region_spec ⟨false, "", "", "", "", "home"⟩ "The North Pacific" "" 0
    (fun _ => ⟨200, "text/html", "Success! You have moved.", none, none, [], none⟩)
    ⟨true, "", "", "", "", "home"⟩ rfl rfl (by decide) rfl

/-- C6: with no mode given, `api_command` chains the two-phase protocol
transparently — the first submission carries the "prepare" marker, the
continuation token is read from the `success` key of the parsed prepare
response, the second submission is the same payload plus that token under
`token` and the "execute" marker, and the second parsed result is returned;
with an explicit mode ("prepare" or "execute") exactly one submission with
that marker is made and its parsed result returned.  (When the server
supplies no X-Pin header and is not exhausting the rate bucket, the stored
pin is unchanged throughout.) -/
theorem c6_api_command_two_phase (st : SessionState) (nation command : String)
    (data : KV) (crl : Bool) (net : KV → ApiResponse) (tok : String)
    (hcmd : command = "giftcard" ∨ command = "dispatch" ∨ command = "rmbpost")
    (hpin : st.pin ≠ "")
    (hrem1 : (net (api_payload nation command data "prepare")).head.remaining ≠ 0)
    (hst1 : (net (api_payload nation command data "prepare")).status < 400)
    (hxpin1 : (net (api_payload nation command data "prepare")).head.xpin = none)
    (htok : kvLookup (net (api_payload nation command data "prepare")).parsed "success"
      = some tok)
    (hrem2 : (net (api_payload nation command
        (kvInsert (api_payload nation command data "prepare") "token" tok)
        "execute")).head.remaining ≠ 0)
    (hst2 : (net (api_payload nation command
        (kvInsert (api_payload nation command data "prepare") "token" tok)
        "execute")).status < 400)
    (hxpin2 : (net (api_payload nation command
        (kvInsert (api_payload nation command data "prepare") "token" tok)
        "execute")).head.xpin = none) :
    api_command st nation command data "" "" crl net
      = ([api_payload nation command data "prepare",
          api_payload nation command
            (kvInsert (api_payload nation command data "prepare") "token" tok) "execute"],
         .ok (st, (net (api_payload nation command
            (kvInsert (api_payload nation command data "prepare") "token" tok)
            "execute")).parsed))
    ∧ kvLookup (api_payload nation command data "prepare") "mode" = some "prepare"
    ∧ kvLookup (api_payload nation command
        (kvInsert (api_payload nation command data "prepare") "token" tok) "execute")
        "mode" = some "execute"
    ∧ kvLookup (api_payload nation command
        (kvInsert (api_payload nation command data "prepare") "token" tok) "execute")
        "token" = some tok
    ∧ (∀ k, k ≠ "mode" → k ≠ "token" →
        kvLookup (api_payload nation command
          (kvInsert (api_payload nation command data "prepare") "token" tok) "execute") k
          = kvLookup (api_payload nation command data "prepare") k)
    ∧ (∀ mode, (mode = "prepare" ∨ mode = "execute") →
        (net (api_payload nation command data mode)).head.remaining ≠ 0 →
        (net (api_payload nation command data mode)).status < 400 →
        (net (api_payload nation command data mode)).head.xpin = none →
        api_command st nation command data "" mode crl net
          = ([api_payload nation command data mode],
             .ok (st, (net (api_payload nation command data mode)).parsed))) := by
  refine ⟨?_, (api_payload_lookup_facts nation command data tok).1,
    (api_payload_lookup_facts nation command data tok).2.1,
    (api_payload_lookup_facts nation command data tok).2.2.1,
    (api_payload_lookup_facts nation command data tok).2.2.2,
    fun mode hm hr hs hx =>
      api_command_explicit_mode st nation command data crl net mode hcmd hpin hm hr hs hx⟩
  obtain ⟨s1, hrl1⟩ := wait_for_ratelimit_ok st.pin
    (net (api_payload nation command data "prepare")).head crl hrem1 hxpin1
  obtain ⟨s2, hrl2⟩ := wait_for_ratelimit_ok st.pin
    (net (api_payload nation command
      (kvInsert (api_payload nation command data "prepare") "token" tok) "execute")).head
    false hrem2 hxpin2
  rw [api_command]
  rw [if_neg (not_not_intro hcmd)]
  rw [if_neg (by simp [hpin])]
  rw [if_neg (by simp)]
  simp only [if_true, dite_true]
  simp only [hrl1]
  rw [if_neg (by omega)]
  simp only [htok]
  have heta : ({ lock := st.lock, chk := st.chk, localid := st.localid,
                 pin := st.pin, nation := st.nation,
                 region := st.region } : SessionState) = st := rfl
  rw [heta]
  rw [api_command]
  rw [if_neg (not_not_intro hcmd)]
  rw [if_neg (by simp [hpin])]
  rw [if_neg (by simp)]
  rw [if_neg (show ¬("execute" : String) = "" by decide)]
  simp only [hrl2]
  rw [if_neg (by omega)]
  rw [dif_neg (show ¬("execute" : String) = "" by decide)]

/-- C6 witness: a chained dispatch command against a concrete oracle that
answers the prepare submission with token "TOK". -/
theorem c6_api_command_two_phase_witness :
    api_command ⟨false, "", "", "p1", "", ""⟩ "Testlandia" "dispatch" [] "" "" false c6net
      = ([api_payload "Testlandia" "dispatch" [] "prepare",
          api_payload "Testlandia" "dispatch"
            (kvInsert (api_payload "Testlandia" "dispatch" [] "prepare") "token" "TOK")
            "execute"],
         .ok (⟨false, "", "", "p1", "", ""⟩,
              (c6net (api_payload "Testlandia" "dispatch"
                (kvInsert (api_payload "Testlandia" "dispatch" [] "prepare") "token" "TOK")
                "execute")).parsed)) :=
  (c6_api_command_two_phase ⟨false, "", "", "p1", "", ""⟩ "Testlandia" "dispatch" []
    false c6net "TOK" (Or.inr (Or.inl rfl)) (by decide) (by decide) (by decide) rfl
    (by rfl) (by decide) (by decide) rfl).1

/-- C7: every URL whose canonical form contains a banned page category
(telegrams, composing telegrams, dilemmas, the store, or help) makes
`request` raise the descriptive ValueError before any network call, for any
payload, any files flag and any session state. -/
theorem c7_banned_endpoint_rejected (st : SessionState) (url : String)
    (data : KV) (files redirects : Bool) (uc : Nat) (net : NetCall → Response)
    (hban : bannedPages.any (fun b => pyIn b (canonicalize url)) = true) :
    request st url data files redirects uc net
      = ⟨st, data, [], .error .valueErrorBanned⟩ := by
  simp [request, hban]

/-- C7 witness: the telegrams page with an otherwise valid payload. -/
theorem c7_banned_endpoint_rejected_witness :
    request ⟨false, "", "", "", "", ""⟩
        "https://www.nationstates.net/page=telegrams" [("message", "hi")] false false 0
        (fun _ => ⟨200, "", "", none, none, [], none⟩)
      = ⟨⟨false, "", "", "", "", ""⟩, [("message", "hi")], [], .error .valueErrorBanned⟩ :=
  c7_banned_endpoint_rejected ⟨false, "", "", "", "", ""⟩
    "https://www.nationstates.net/page=telegrams" [("message", "hi")] false false 0
    (fun _ => ⟨200, "", "", none, none, [], none⟩) (by decide)

/-- C8: the claim states that a pretitle of 29 characters against the
28-character maximum raises a validation error before any request is sent.
The code behaves otherwise: `change_nation_settings` sends the pretitle
under the form field name "type" (and the demonyms under "demonym2",
"demonym" and "demonym2pl"), while `_validate_fields` only recognises the
keys "pretitle", "demonym_noun", "demonym_adjective" and "demonym_plural" —
so the length check for those fields never runs.  This theorem evaluates the
model at a 29-character pretitle: no validation error is raised and exactly
one network call goes out. -/
theorem c8_overlong_pretitle_sent_to_network :
    (change_nation_settings ⟨false, "", "", "", "", ""⟩
        "" "aaaaaaaaaaaaaaaaaaaaaaaaaaaaa" "" "" "" "" "" "" "" 0
        (fun _ => ⟨200, "text/html", "", none, none, [], none⟩)).1.length = 1
    ∧ (change_nation_settings ⟨false, "", "", "", "", ""⟩
        "" "aaaaaaaaaaaaaaaaaaaaaaaaaaaaa" "" "" "" "" "" "" "" 0
        (fun _ => ⟨200, "text/html", "", none, none, [], none⟩)).2
      = .ok (⟨false, "", "", "", "", ""⟩, false)
    ∧ ("aaaaaaaaaaaaaaaaaaaaaaaaaaaaa" : String).length = 29 :=
  ⟨rfl, rfl, rfl⟩

/-- C9: `delete_collection` decides success by the identical substring as
`create_collection`: on every completed run each returns exactly the test
"Created collection!" applied to its response body, and the two success
predicates agree on every body. -/
theorem c9_collection_success_same_marker (st : SessionState) (name : String)
    (uc : Nat) (net : NetCall → Response) (stc std : SessionState)
    (hlock : st.lock = false)
    (hstc : (net (createCall st name uc)).status < 400)
    (hextc : get_auth_values { st with lock := true }
        (net (createCall st name uc)) = some stc)
    (hstd : (net (deleteCall st name uc)).status < 400)
    (hextd : get_auth_values { st with lock := true }
        (net (deleteCall st name uc)) = some std) :
    (create_collection st name uc net).2
      = .ok ({ stc with lock := false },
             create_collection_success (net (createCall st name uc)).body)
    ∧ (delete_collection st name uc net).2
      = .ok ({ std with lock := false },
             delete_collection_success (net (deleteCall st name uc)).body)
    ∧ ∀ body, delete_collection_success body = create_collection_success body := by
  have hc := request_spec st "https://www.nationstates.net/template-overall=none/page=deck"
    [("edit", "1"), ("collection_name", name), ("save_collection", "1")] false false uc net stc
    (by decide) (by decide) (by decide) hlock (by simpa only [createCall] using hstc)
    (by simpa only [createCall] using hextc)
  have hd := request_spec st "https://www.nationstates.net/template-overall=none/page=deck"
    [("edit", "1"), ("collection_name", name), ("delete_collection", "1")] false false uc net std
    (by decide) (by decide) (by decide) hlock (by simpa only [deleteCall] using hstd)
    (by simpa only [deleteCall] using hextd)
  refine ⟨?_, ?_, fun _ => rfl⟩
  · simp only [create_collection]
    rw [hc]
    simp only [createCall]
  · simp only [delete_collection]
    rw [hd]
    simp only [deleteCall]

/-- C9 witness: both operations run against a response whose body is
"Created collection!" and both report success. -/
theorem c9_collection_success_same_marker_witness :
    (create_collection ⟨false, "", "", "", "", ""⟩ "My List" 0
        (fun _ => ⟨200, "text/html", "Created collection!", none, none, [], none⟩)).2
      = .ok (⟨false, "", "", "", "", ""⟩,
             create_collection_success
               ((fun _ => (⟨200, "text/html", "Created collection!",
                   none, none, [], none⟩ : Response))
                 (createCall ⟨false, "", "", "", "", ""⟩ "My List" 0)).body)
    ∧ (delete_collection ⟨false, "", "", "", "", ""⟩ "My List" 0
        (fun _ => ⟨200, "text/html", "Created collection!", none, none, [], none⟩)).2
      = .ok (⟨false, "", "", "", "", ""⟩,
             delete_collection_success
               ((fun _ => (⟨200, "text/html", "Created collection!",
                   none, none, [], none⟩ : Response))
                 (deleteCall ⟨false, "", "", "", "", ""⟩ "My List" 0)).body)
    ∧ ∀ body, delete_collection_success body = create_collection_success body :=
  c9_collection_success_same_marker ⟨false, "", "", "", "", ""⟩ "My List" 0
    (fun _ => ⟨200, "text/html", "Created collection!", none, none, [], none⟩)
    ⟨true, "", "", "", "", ""⟩ ⟨true, "", "", "", "", ""⟩ rfl
    (by decide) rfl (by decide) rfl

/-- C10 counterexample: the claim states the caller's mapping holds the
session's current token values after the call.  When the response carries a
fresh chk input, the extractor updates the session token but the mapping
keeps the value merged at call time: afterwards the mapping's "chk" entry is
the old token while the session's current chk is the new one. -/
theorem c10_mapping_keeps_call_time_tokens :
    kvLookup (request ⟨false, "oldchk", "oldlocal", "", "", ""⟩ "nationstates.net"
        [("foo", "bar")] false false 0
        (fun _ => ⟨200, "text/html", "page", some "newchk", none, [], none⟩)).data "chk"
      = some "oldchk"
    ∧ (request ⟨false, "oldchk", "oldlocal", "", "", ""⟩ "nationstates.net"
        [("foo", "bar")] false false 0
        (fun _ => ⟨200, "text/html", "page", some "newchk", none, [], none⟩)).state.chk
      = "newchk"
    ∧ ("oldchk" : String) ≠ "newchk" :=
  ⟨rfl, rfl, by decide⟩

/-- C10 (amended): for every lock-free call to `request` on an HTML-surface
URL, the caller's mapping is mutated in place on every outcome of the HTML
path: afterwards it equals the original mapping with "chk" and "localid"
bound to the token values the session held when the call began (values the
extractor may later replace in the session without touching the mapping);
entries under all other keys are preserved, while caller-supplied "chk" or
"localid" entries are overwritten. -/
theorem c10_html_path_mutates_caller_mapping (st : SessionState) (url : String)
    (data : KV) (files redirects : Bool) (uc : Nat) (net : NetCall → Response)
    (hlock : st.lock = false)
    (hban : bannedPages.any (fun b => pyIn b (canonicalize url)) = false)
    (hapi : pyIn "api.cgi" (canonicalize url) = false)
    (hns : pyIn "nationstates" (canonicalize url) = true) :
    (request st url data files redirects uc net).data
      = kvInsert (kvInsert data "chk" st.chk) "localid" st.localid
    ∧ kvLookup (request st url data files redirects uc net).data "chk" = some st.chk
    ∧ kvLookup (request st url data files redirects uc net).data "localid"
      = some st.localid
    ∧ ∀ k, k ≠ "chk" → k ≠ "localid" →
        kvLookup (request st url data files redirects uc net).data k
          = kvLookup data k := by
  have hdata : (request st url data files redirects uc net).data
      = kvInsert (kvInsert data "chk" st.chk) "localid" st.localid := by
    simp only [request, hban, hapi, hns, hlock]
    simp only [Bool.false_eq_true, if_false, if_true]
    split
    · rfl
    · split <;> rfl
  refine ⟨hdata, ?_, ?_, ?_⟩
  · rw [hdata, kvLookup_kvInsert_ne _ _ _ _ (by decide), kvLookup_kvInsert_self]
  · rw [hdata, kvLookup_kvInsert_self]
  · intro k hk hk2
    rw [hdata, kvLookup_kvInsert_ne _ _ _ _ hk2, kvLookup_kvInsert_ne _ _ _ _ hk]

/-- C10 witness: a caller mapping with one entry gains the two token
entries and keeps its own. -/
theorem c10_html_path_mutates_caller_mapping_witness :
    (request ⟨false, "tokC", "tokL", "", "", ""⟩ "nationstates.net" [("foo", "bar")]
        false false 0 (fun _ => ⟨200, "text/html", "", none, none, [], none⟩)).data
      = kvInsert (kvInsert [("foo", "bar")] "chk" "tokC") "localid" "tokL"
    ∧ kvLookup (request ⟨false, "tokC", "tokL", "", "", ""⟩ "nationstates.net"
        [("foo", "bar")] false false 0
        (fun _ => ⟨200, "text/html", "", none, none, [], none⟩)).data "foo"
      = some "bar" :=
  ⟨(c10_html_path_mutates_caller_mapping ⟨false, "tokC", "tokL", "", "", ""⟩
      "nationstates.net" [("foo", "bar")] false false 0
      (fun _ => ⟨200, "text/html", "", none, none, [], none⟩) rfl
      (by decide) (by decide) (by decide)).1,
   (c10_html_path_mutates_caller_mapping ⟨false, "tokC", "tokL", "", "", ""⟩
      "nationstates.net" [("foo", "bar")] false false 0
      (fun _ => ⟨200, "text/html", "", none, none, [], none⟩) rfl
      (by decide) (by decide) (by decide)).2.2.2 "foo" (by decide) (by decide)⟩
